import Mathlib

/-!
Shallow embedding of the `sim-core` falling-sand engine
(`src/sim-core/src/lib.rs`, `src/sim-core/src/materials.rs`).

Machine integers are modelled as `Nat` with explicit reduction:
`u8` arithmetic is taken `% 256`, `u64` arithmetic `% 2^64`; coordinates
(`i32` in the source) are `Int`.  Rust's early-`return` chains are
value-threaded: every fallible movement primitive returns
`Bool × SimAPI`, exactly mirroring the `-> bool` signatures plus the
`&mut self` state.
-/

/-- `2^64`, the modulus of Rust `u64` arithmetic. -/
def U64 : Nat := 18446744073709551616

/-- Wrapping subtraction on `u8` values represented as `Nat`
(`a.wrapping_sub(b)` for the represented bytes). -/
def u8_wrapping_sub (a b : Nat) : Nat := (a % 256 + 256 - b % 256) % 256

/-- `materials.rs`: the `Material` enum (`#[repr(u8)]`). -/
inductive Material where
  | Empty
  | Wall
  | Sand
  | Water
  | Stone
deriving DecidableEq, Repr

/-- `materials.rs`: `Material::from_id` — unknown ids decode to `Empty`. -/
def Material.from_id (id : Nat) : Material :=
  match id with
  | 1 => Material.Wall
  | 2 => Material.Sand
  | 3 => Material.Water
  | 4 => Material.Stone
  | _ => Material.Empty

/-- `materials.rs`: `Material::id` — `self as u8` for the `#[repr(u8)]` enum. -/
def Material.id : Material → Nat
  | Material.Empty => 0
  | Material.Wall => 1
  | Material.Sand => 2
  | Material.Water => 3
  | Material.Stone => 4

/-- `lib.rs`: the `Cell` value type. `ra`, `rb`, `clock` are `u8`. -/
structure Cell where
  material : Material
  ra : Nat
  rb : Nat
  clock : Nat
deriving DecidableEq, Repr

/-- `lib.rs`: `Cell::empty_with_clock`. -/
def Cell.empty_with_clock (clock : Nat) : Cell :=
  { material := Material.Empty, ra := 0, rb := 0, clock := clock }

/-- `lib.rs`: `fn idx(width, x, y) = (y as u32 * width + x as u32) as usize`.
Only ever called on in-bounds (hence non-negative) coordinates. -/
def idx (width : Nat) (x y : Int) : Nat := y.toNat * width + x.toNat

/-- `materials.rs`: `color_of(s, ra) -> [u8; 4]`, as a 4-element list.
`i16` intermediate arithmetic is exact here (no overflow is reachable),
and Rust `i16` division truncates toward zero, i.e. `Int.div`. -/
def color_of (s : Material) (ra : Nat) : List Nat :=
  let base_color : List Nat :=
    match s with
    | Material.Empty => [0, 0, 0, 255]
    | Material.Wall => [120, 120, 120, 255]
    | Material.Stone => [90, 90, 90, 255]
    | Material.Sand => [216, 180, 90, 255]
    | Material.Water => [64, 120, 220, 255]
  if s = Material.Empty then
    base_color
  else
    let brightness_offset : Int := (ra : Int) - 128
    let brightness : Int := Int.tdiv brightness_offset 4
    let r := (max 0 (min 255 ((base_color.getD 0 0 : Int) + brightness))).toNat
    let g := (max 0 (min 255 ((base_color.getD 1 0 : Int) + brightness))).toNat
    let b := (max 0 (min 255 ((base_color.getD 2 0 : Int) + brightness))).toNat
    [r, g, b, base_color.getD 3 0]

/-- `lib.rs`: the `Simulation` struct.  `cells` is the row-major grid,
`pixels` the RGBA buffer, `generation` a `u8`, `rng` a `u64`. -/
structure Simulation where
  width : Nat
  height : Nat
  cells : List Cell
  pixels : List Nat
  generation : Nat
  rng : Nat
  frame : Nat
deriving DecidableEq, Repr

/-- `lib.rs`: `Simulation::in_bounds`. -/
def Simulation.in_bounds (s : Simulation) (x y : Int) : Prop :=
  0 ≤ x ∧ 0 ≤ y ∧ x < (s.width : Int) ∧ y < (s.height : Int)

instance (s : Simulation) (x y : Int) : Decidable (s.in_bounds x y) := by
  unfold Simulation.in_bounds; infer_instance

/-- `lib.rs`: `Simulation::rng_next` — xorshift64 (`<<12`, `>>25`, `<<27`)
followed by the splitmix-style output multiply; returns the drawn `u32`
and the advanced simulation. -/
def Simulation.rng_next (s : Simulation) : Nat × Simulation :=
  let x := s.rng
  let x := x ^^^ ((x <<< 12) % U64)
  let x := x ^^^ (x >>> 25)
  let x := x ^^^ ((x <<< 27) % U64)
  (((x * 2685821657736338717) % U64) >>> 32, { s with rng := x })

/-- `lib.rs`: `Simulation::write_pixels`.  The source calls
`color_of(self.cells[i].material)`, omitting the `ra` argument that
`color_of(s: Material, ra: u8)` in `materials.rs` requires, so the two
files do not type-check together; we model the only well-typed reading,
passing the cell's own `ra`. -/
def Simulation.write_pixels (s : Simulation) : Simulation :=
  { s with pixels :=
      (List.range (s.height * s.width)).flatMap fun i =>
        let c := s.cells.getD i (Cell.empty_with_clock 0)
        color_of c.material c.ra }

/-- `lib.rs`: the `SimAPI` relative neighbor view (`x`, `y`, `sim`). -/
structure SimAPI where
  x : Int
  y : Int
  sim : Simulation

/-- `lib.rs`: `SimAPI::get` — synthetic Wall cell when out of bounds. -/
def SimAPI.get (a : SimAPI) (dx dy : Int) : Cell :=
  let nx := a.x + dx
  let ny := a.y + dy
  if ¬ a.sim.in_bounds nx ny then
    { material := Material.Wall, ra := 0, rb := 0, clock := a.sim.generation }
  else
    a.sim.cells.getD (idx a.sim.width nx ny) (Cell.empty_with_clock 0)

/-- `lib.rs`: `SimAPI::set` — no-op out of bounds, stamps
`clock = generation.wrapping_add(1)`. -/
def SimAPI.set (a : SimAPI) (dx dy : Int) (v : Cell) : SimAPI :=
  let nx := a.x + dx
  let ny := a.y + dy
  if ¬ a.sim.in_bounds nx ny then a
  else
    let di := idx a.sim.width nx ny
    let v := { v with clock := (a.sim.generation + 1) % 256 }
    { a with sim := { a.sim with cells := a.sim.cells.set di v } }

/-- `lib.rs`: `SimAPI::clear_here`. -/
def SimAPI.clear_here (a : SimAPI) : SimAPI :=
  let i := idx a.sim.width a.x a.y
  { a with sim := { a.sim with
      cells := a.sim.cells.set i (Cell.empty_with_clock ((a.sim.generation + 1) % 256)) } }

/-- `lib.rs`: `SimAPI::try_move` — move into the target iff it is Empty. -/
def SimAPI.try_move (a : SimAPI) (dx dy : Int) (cell : Cell) : Bool × SimAPI :=
  if (a.get dx dy).material = Material.Empty then
    (true, ((a.set dx dy cell)).clear_here)
  else
    (false, a)

/-- `lib.rs`: `SimAPI::try_move_into` — swap with the target iff its
material is in `allowed_materials`; both slots stamped `generation + 1`. -/
def SimAPI.try_move_into (a : SimAPI) (dx dy : Int) (cell : Cell)
    (allowed_materials : List Material) : Bool × SimAPI :=
  let target := a.get dx dy
  if target.material ∈ allowed_materials then
    let target_cell := { target with clock := (a.sim.generation + 1) % 256 }
    let a := a.set dx dy cell
    let i := idx a.sim.width a.x a.y
    (true, { a with sim := { a.sim with cells := a.sim.cells.set i target_cell } })
  else
    (false, a)

/-- `lib.rs`: `SimAPI::rand_u32`. -/
def SimAPI.rand_u32 (a : SimAPI) : Nat × SimAPI :=
  let p := a.sim.rng_next
  (p.1, { a with sim := p.2 })

/-- `lib.rs`: `SimAPI::generation`. -/
def SimAPI.generation (a : SimAPI) : Nat := a.sim.generation

/-- `materials.rs`: `update_sand`.  Rust's early returns are threaded as
`Bool × SimAPI` results. -/
def update_sand (cell : Cell) (api : SimAPI) : SimAPI :=
  let p := api.try_move 0 1 cell
  if p.1 then p.2 else
  let q := p.2.rand_u32
  let left_first := (p.2.generation ^^^ q.1) &&& 1 == 0
  let d :=
    if left_first then
      let r := q.2.try_move (-1) 1 cell
      if r.1 then r else
      r.2.try_move 1 1 cell
    else
      let r := q.2.try_move 1 1 cell
      if r.1 then r else
      r.2.try_move (-1) 1 cell
  if d.1 then d.2 else
  let e := d.2.try_move_into 0 1 cell [Material.Water]
  if e.1 then e.2 else
  if left_first then
    let f := e.2.try_move_into (-1) 1 cell [Material.Water]
    if f.1 then f.2 else
    (f.2.try_move_into 1 1 cell [Material.Water]).2
  else
    let f := e.2.try_move_into 1 1 cell [Material.Water]
    if f.1 then f.2 else
    (f.2.try_move_into (-1) 1 cell [Material.Water]).2

/-- `materials.rs`: `update_water`. -/
def update_water (cell : Cell) (api : SimAPI) : SimAPI :=
  let v := api.rand_u32
  if v.1 % 4 == 0 then v.2 else
  let p := v.2.try_move 0 1 cell
  if p.1 then p.2 else
  let above := (p.2.get 0 (-1)).material
  let is_surface := above = Material.Empty
  let q := p.2.rand_u32
  let left_first := (p.2.generation ^^^ q.1) &&& 1 == 0
  let d :=
    if is_surface then
      if left_first then
        let r1 := q.2.try_move (-1) 0 cell
        if r1.1 then r1 else
        let r2 := r1.2.try_move 1 0 cell
        if r2.1 then r2 else
        let r3 := r2.2.try_move (-1) 1 cell
        if r3.1 then r3 else
        r3.2.try_move 1 1 cell
      else
        let r1 := q.2.try_move 1 0 cell
        if r1.1 then r1 else
        let r2 := r1.2.try_move (-1) 0 cell
        if r2.1 then r2 else
        let r3 := r2.2.try_move 1 1 cell
        if r3.1 then r3 else
        r3.2.try_move (-1) 1 cell
    else
      if left_first then
        let r1 := q.2.try_move (-1) 1 cell
        if r1.1 then r1 else
        let r2 := r1.2.try_move 1 1 cell
        if r2.1 then r2 else
        let r3 := r2.2.try_move (-1) 0 cell
        if r3.1 then r3 else
        r3.2.try_move 1 0 cell
      else
        let r1 := q.2.try_move 1 1 cell
        if r1.1 then r1 else
        let r2 := r1.2.try_move (-1) 1 cell
        if r2.1 then r2 else
        let r3 := r2.2.try_move 1 0 cell
        if r3.1 then r3 else
        r3.2.try_move (-1) 0 cell
  if d.1 then d.2 else
  let below := (d.2.get 0 1).material
  let left := (d.2.get (-1) 0).material
  let right := (d.2.get 1 0).material
  let is_in_pool :=
    (below = Material.Wall ∨ below = Material.Water)
    ∧ (left = Material.Wall ∨ left = Material.Water)
    ∧ (right = Material.Wall ∨ right = Material.Water)
  if ¬ is_in_pool then
    if left_first then
      let r1 := d.2.try_move (-1) 0 cell
      if r1.1 then r1.2 else
      (r1.2.try_move 1 0 cell).2
    else
      let r1 := d.2.try_move 1 0 cell
      if r1.1 then r1.2 else
      (r1.2.try_move (-1) 0 cell).2
  else d.2

/-- `materials.rs`: `update_cell` — dispatch on the material. -/
def update_cell (cell : Cell) (api : SimAPI) : SimAPI :=
  match cell.material with
  | Material.Sand => update_sand cell api
  | Material.Water => update_water cell api
  | _ => api

/-- `lib.rs`: `Simulation::update_at` — skip if
`clock.wrapping_sub(generation) == 0` or the cell is Empty, otherwise
dispatch through a fresh `SimAPI`. -/
def Simulation.update_at (s : Simulation) (x y : Int) : Simulation :=
  let i := idx s.width x y
  let cell := s.cells.getD i (Cell.empty_with_clock 0)
  if u8_wrapping_sub cell.clock s.generation == 0 then s
  else if cell.material = Material.Empty then s
  else (update_cell cell { x := x, y := y, sim := s }).sim

/-- The scan order of one tick of `Simulation::step`: rows bottom-to-top,
columns left-to-right when `generation & 1 == 0`, right-to-left otherwise. -/
def scan_positions (w h gen : Nat) : List (Int × Int) :=
  let lr := gen &&& 1 == 0
  (List.range h).reverse.flatMap fun y =>
    (if lr then List.range w else (List.range w).reverse).map
      fun x => ((x : Int), (y : Int))

/-- One iteration of the `for _ in 0..ticks` loop of `Simulation::step`:
advance the generation (wrapping `u8`), then scan. -/
def Simulation.tick (s : Simulation) : Simulation :=
  let s := { s with generation := (s.generation + 1) % 256 }
  (scan_positions s.width s.height s.generation).foldl
    (fun st p => st.update_at p.1 p.2) s

/-- The tick loop of `Simulation::step`, iterated. -/
def Simulation.run_ticks : Simulation → Nat → Simulation
  | s, 0 => s
  | s, n + 1 => (s.tick).run_ticks n

/-- `lib.rs`: `Simulation::step(ticks)` — run the ticks, bump the `u32`
frame counter, recompute the pixel buffer. -/
def Simulation.step (s : Simulation) (ticks : Nat) : Simulation :=
  let s := s.run_ticks ticks
  ({ s with frame := (s.frame + 1) % 4294967296 }).write_pixels

/-- `lib.rs`: `Simulation::new` — all-Empty grid, zeroed pixel buffer,
generation 0, the fixed RNG seed; then an initial render pass. -/
def Simulation.new (width height : Nat) : Simulation :=
  let len := width * height
  (Simulation.mk width height
      (List.replicate len { material := Material.Empty, ra := 0, rb := 0, clock := 0 })
      (List.replicate (len * 4) 0)
      0
      0xA5A5123489ABCDEF
      0).write_pixels

/-- `lib.rs`: `Simulation::count_mat`. -/
def Simulation.count_mat (s : Simulation) (material_id : Nat) : Nat :=
  (s.cells.filter fun m => m.material.id = material_id).length

/-- `lib.rs`: `Simulation::set_cell` — no-op out of range, unknown ids
decode to Empty, stamped `generation + 1`, and the one pixel updated
(the call site again omits `ra`; the stored cell has `ra = 0`, so the
modelled `color_of material 0` is the colour of the stored cell). -/
def Simulation.set_cell (s : Simulation) (x y : Nat) (material_id : Nat) : Simulation :=
  if s.width ≤ x ∨ s.height ≤ y then s else
  let i := idx s.width (x : Int) (y : Int)
  let material := Material.from_id material_id
  let v : Cell := { material := material, ra := 0, rb := 0, clock := (s.generation + 1) % 256 }
  let s := { s with cells := s.cells.set i v }
  let p := i * 4
  let c := color_of material 0
  { s with pixels :=
      ((((s.pixels.set p (c.getD 0 0)).set (p + 1) (c.getD 1 0)).set
          (p + 2) (c.getD 2 0)).set (p + 3) (c.getD 3 0)) }

/-- `lib.rs`: `Simulation::paint_circle` — every in-bounds cell with
`dx² + dy² ≤ r²` written (stamped `generation + 1`), then a full render
pass.  The `-r..=r` ranges are realised as explicit offset lists. -/
def Simulation.paint_circle (s : Simulation) (cx cy radius : Nat) (material_id : Nat) :
    Simulation :=
  let r : Int := radius
  let m := Material.from_id material_id
  let r2 := r * r
  let offs : List Int := (List.range (2 * radius + 1)).map fun k => (k : Int) - r
  let s := offs.foldl (fun s dy =>
    offs.foldl (fun s dx =>
      if dx * dx + dy * dy ≤ r2 then
        let x := (cx : Int) + dx
        let y := (cy : Int) + dy
        if s.in_bounds x y then
          let v : Cell := { material := m, ra := 0, rb := 0, clock := (s.generation + 1) % 256 }
          { s with cells := s.cells.set (idx s.width x y) v }
        else s
      else s) s) s
  s.write_pixels

/-- Convenience accessor for stating theorems: the cell at `(x, y)`. -/
def Simulation.cell_at (s : Simulation) (x y : Int) : Cell :=
  s.cells.getD (idx s.width x y) (Cell.empty_with_clock 0)

/-- Modelled from claim C7 as stated: a 64-bit xorshift advancing the state
with shift amounts 12, 25, 27 applied in a left-left-right pattern. -/
def xorshift_llr (s : Nat) : Nat :=
  let x := s
  let x := x ^^^ ((x <<< 12) % U64)
  let x := x ^^^ ((x <<< 25) % U64)
  let x := x ^^^ (x >>> 27)
  x

/-- Modelled from the amended claim for C7: a 64-bit xorshift advancing the
state with shift amounts 12, 25, 27 applied in a left-right-left pattern. -/
def xorshift_lrl (s : Nat) : Nat :=
  let x := s
  let x := x ^^^ ((x <<< 12) % U64)
  let x := x ^^^ (x >>> 25)
  let x := x ^^^ ((x <<< 27) % U64)
  x

/-- Modelled from the claim for C8 (spec side): look up the base colour by
material; for a non-Empty cell remap `ra` from `[0,255]` to a signed offset
centred at 0, scale it down (division by 4, truncating toward zero), add it
to each of R, G, B and clamp each channel to `[0,255]`, leaving alpha
unchanged; an Empty cell is never varied. -/
def color_spec (m : Material) (ra : Nat) : List Nat :=
  let base : List Nat :=
    match m with
    | Material.Empty => [0, 0, 0, 255]
    | Material.Wall => [120, 120, 120, 255]
    | Material.Stone => [90, 90, 90, 255]
    | Material.Sand => [216, 180, 90, 255]
    | Material.Water => [64, 120, 220, 255]
  if m = Material.Empty then base
  else
    let off : Int := Int.tdiv ((ra : Int) - 128) 4
    (base.take 3).map (fun ch => (max 0 (min 255 ((ch : Int) + off))).toNat)
      ++ base.drop 3

/-- Host-call alphabet for the determinism claim C4. -/
inductive Cmd where
  | set_cell (x y material_id : Nat)
  | paint_circle (cx cy radius material_id : Nat)
  | step (ticks : Nat)

/-- Interpret one host call. -/
def apply_cmd : Cmd → Simulation → Simulation
  | Cmd.set_cell x y mid, s => s.set_cell x y mid
  | Cmd.paint_circle cx cy r mid, s => s.paint_circle cx cy r mid
  | Cmd.step t, s => s.step t

/-- The pixel buffer observed after each call of a command sequence. -/
def pixel_trace (s : Simulation) : List Cmd → List (List Nat)
  | [] => []
  | c :: cs => let t := apply_cmd c s; t.pixels :: pixel_trace t cs

/-- Number of cells whose material satisfies `P`. -/
def mcount (cells : List Cell) (P : Material → Bool) : Nat :=
  (cells.filter fun c => P c.material).length

/-- Conservation relation on simulations: dimensions, grid size and every
per-material cell count agree. -/
def SimConserved (s t : Simulation) : Prop :=
  t.width = s.width ∧ t.height = s.height ∧ t.cells.length = s.cells.length ∧
  ∀ P : Material → Bool, mcount t.cells P = mcount s.cells P

/-- Conservation relation on neighbor views: position preserved and the
underlying simulations conserved. -/
def Step (a b : SimAPI) : Prop :=
  b.x = a.x ∧ b.y = a.y ∧ b.sim.width = a.sim.width ∧ b.sim.height = a.sim.height ∧
  b.sim.cells.length = a.sim.cells.length ∧
  ∀ P : Material → Bool, mcount b.sim.cells P = mcount a.sim.cells P

/-- Strong preservation: only the RNG word (and possibly pixels) may differ. -/
def Keep (a b : SimAPI) : Prop :=
  b.x = a.x ∧ b.y = a.y ∧ b.sim.width = a.sim.width ∧ b.sim.height = a.sim.height ∧
  b.sim.cells = a.sim.cells

/-- Invariant a neighbor view enjoys when constructed by `update_at`:
its coordinate is in bounds, the grid has the right size, and `c` is the
material content of its own slot. -/
def ApiOk (a : SimAPI) (c : Cell) : Prop :=
  a.sim.in_bounds a.x a.y ∧
  a.sim.cells.length = a.sim.width * a.sim.height ∧
  (a.sim.cells.getD (idx a.sim.width a.x a.y) (Cell.empty_with_clock 0)).material = c.material

/-- A fallible movement attempt together with its early-return discipline:
the result is conserved relative to `b`, and on failure the view is
returned unchanged. -/
def Chain (b : SimAPI) (p : Bool × SimAPI) : Prop :=
  Step b p.2 ∧ (p.1 = false → p.2 = b)

/-- C1 failing input: 4×3 grid, Wall floor on row 2, a Wall at (0,1) and a
Water cell at (1,1). -/
def c1_start : Simulation :=
  (((((((Simulation.new 4 3).set_cell 0 2 1).set_cell 1 2 1).set_cell
      2 2 1).set_cell 3 2 1).set_cell 0 1 1).set_cell 1 1 3)

/-- The state of the C1 scenario in the middle of its second tick: the
first `n` scan positions of the generation-2 scan processed. -/
def c1_during (n : Nat) : Simulation :=
  ((scan_positions 4 3 2).take n).foldl (fun st p => st.update_at p.1 p.2)
    { c1_start.tick with generation := 2 }

/-- C2 failing input: 1×4 grid, Wall at (0,3), Sand at (0,0). -/
def c2_start : Simulation := ((Simulation.new 1 4).set_cell 0 3 1).set_cell 0 0 2

/-- C6 failing input: 3×5 grid, flat Wall floor on row 4, a single Sand
cell dropped at (1,0). -/
def c6_start : Simulation :=
  ((((Simulation.new 3 5).set_cell 0 4 1).set_cell 1 4 1).set_cell
      2 4 1).set_cell 1 0 2

/-- C9 witness scenario: a 2×2 grid with Sand at (0,0), viewed from (0,0). -/
def c9_api : SimAPI :=
  { x := 0, y := 0, sim := (Simulation.new 2 2).set_cell 0 0 2 }

/-- C5 witness scenario: same grid, offset (-1,0) falls off the left edge. -/
def c5_api : SimAPI :=
  { x := 0, y := 0, sim := (Simulation.new 2 2).set_cell 0 0 2 }

/-- C3 witness scenario: Sand and Water next to each other on a 2×3 grid. -/
def c3_sim : Simulation := ((Simulation.new 2 3).set_cell 0 0 2).set_cell 1 0 3

/-- Every material the grid can store has id at most 4. -/
theorem Material.id_le (m : Material) : m.id ≤ 4 := by
  cases m <;> simp [Material.id]

/-- `count_mat` of an id outside the known set is zero in every state. -/
theorem count_mat_eq_zero_of_unknown (s : Simulation) (mid : Nat) (h : 4 < mid) :
    s.count_mat mid = 0 := by
  unfold Simulation.count_mat
  rw [List.length_eq_zero, List.filter_eq_nil_iff]
  intro c _
  simp only [decide_eq_true_eq]
  have := Material.id_le c.material
  omega

/-- C10: for every material id outside the known set {0,1,2,3,4},
`from_id` decodes it to Empty, `count_mat` returns 0 in every state, and it
still returns 0 immediately after `set_cell` with that id (the cell is
stored as Empty while `count_mat` compares stored ids directly). -/
theorem c10_unknown_material_id (s : Simulation) (material_id : Nat)
    (h : 4 < material_id) (x y : Nat) :
    Material.from_id material_id = Material.Empty ∧
    s.count_mat material_id = 0 ∧
    (s.set_cell x y material_id).count_mat material_id = 0 := by
  refine ⟨?_, count_mat_eq_zero_of_unknown s material_id h,
    count_mat_eq_zero_of_unknown _ material_id h⟩
  obtain ⟨k, rfl⟩ : ∃ k, material_id = k + 5 := ⟨material_id - 5, by omega⟩
  rfl

theorem c10_unknown_material_id_witness :
    Material.from_id 7 = Material.Empty ∧
    ((Simulation.new 2 2).set_cell 0 0 3).count_mat 7 = 0 ∧
    (((Simulation.new 2 2).set_cell 0 0 3).set_cell 0 0 7).count_mat 7 = 0 :=
  c10_unknown_material_id ((Simulation.new 2 2).set_cell 0 0 3) 7 (by omega) 0 0

set_option maxRecDepth 100000 in
/-- C7 counterexample: at the constructor's fixed seed, one `rng_next`
call does not advance the state by the left-left-right xorshift the claim
describes (the code shifts left 12, right 25, left 27). -/
theorem c7_llr_counterexample :
    ((Simulation.new 1 1).rng_next).2.rng ≠ xorshift_llr (Simulation.new 1 1).rng := by
  decide

/-- C7 amended: `rng_next` advances the 64-bit state by a xorshift with
shift amounts 12, 25, 27 applied in a left-RIGHT-left pattern, and returns
the high 32 bits of the new state multiplied by the fixed odd 64-bit
constant 2685821657736338717; the output depends on nothing but the state,
so for a fixed seed it is a function of the call count. -/
theorem c7_rng_amended (s : Simulation) :
    (s.rng_next).2.rng = xorshift_lrl s.rng ∧
    (s.rng_next).1 = xorshift_lrl s.rng * 2685821657736338717 % U64 / 2 ^ 32 ∧
    2685821657736338717 % 2 = 1 := by
  refine ⟨rfl, ?_, rfl⟩
  simp [Simulation.rng_next, xorshift_lrl, Nat.shiftRight_eq_div_pow]

/-- C8: the renderer is a pure function of the grid (same cells and
dimensions give the same pixel buffer); `color_of` agrees with the claim's
brightness-variation formula `color_spec`; and an Empty cell renders as the
unvaried base colour regardless of its `ra` byte. -/
theorem c8_renderer (s t : Simulation) (hc : s.cells = t.cells)
    (hwd : s.width = t.width) (hh : s.height = t.height)
    (m : Material) (ra ra2 : Nat) :
    (s.write_pixels).pixels = (t.write_pixels).pixels ∧
    color_of m ra = color_spec m ra ∧
    color_of Material.Empty ra = color_of Material.Empty ra2 := by
  refine ⟨?_, ?_, rfl⟩
  · simp [Simulation.write_pixels, hc, hwd, hh]
  · cases m <;> simp [color_of, color_spec]

theorem c8_renderer_witness :
    (((Simulation.new 2 1).set_cell 0 0 2).write_pixels).pixels
      = (((Simulation.new 2 1).set_cell 0 0 2).write_pixels).pixels ∧
    color_of Material.Sand 17 = color_spec Material.Sand 17 ∧
    color_of Material.Empty 17 = color_of Material.Empty 255 :=
  c8_renderer ((Simulation.new 2 1).set_cell 0 0 2) ((Simulation.new 2 1).set_cell 0 0 2)
    rfl rfl rfl Material.Sand 17 255

/-- C5: an out-of-bounds neighbor behaves as an infinite solid Wall:
`get` returns a synthetic Wall cell, `set` is a no-op, `try_move` toward
the offset fails and changes nothing, and `try_move_into` with an allowed
list not containing Wall fails and changes nothing — so no movement
primitive ever writes outside the grid or wraps around an edge. -/
theorem c5_boundary_wall (a : SimAPI) (dx dy : Int) (v c : Cell)
    (allowed : List Material)
    (hoob : ¬ a.sim.in_bounds (a.x + dx) (a.y + dy))
    (hW : Material.Wall ∉ allowed) :
    a.get dx dy
      = { material := Material.Wall, ra := 0, rb := 0, clock := a.sim.generation } ∧
    a.set dx dy v = a ∧
    a.try_move dx dy c = (false, a) ∧
    a.try_move_into dx dy c allowed = (false, a) := by
  have hg : a.get dx dy
      = { material := Material.Wall, ra := 0, rb := 0, clock := a.sim.generation } := by
    simp [SimAPI.get, hoob]
  refine ⟨hg, by simp [SimAPI.set, hoob], ?_, ?_⟩
  · simp [SimAPI.try_move, hg]
  · simp [SimAPI.try_move_into, hg, hW]

theorem c5_boundary_wall_witness :
    c5_api.get (-1) 0
      = { material := Material.Wall, ra := 0, rb := 0, clock := c5_api.sim.generation } ∧
    c5_api.set (-1) 0 (Cell.empty_with_clock 9) = c5_api ∧
    c5_api.try_move (-1) 0 (c5_api.sim.cell_at 0 0) = (false, c5_api) ∧
    c5_api.try_move_into (-1) 0 (c5_api.sim.cell_at 0 0) [Material.Water]
      = (false, c5_api) :=
  c5_boundary_wall c5_api (-1) 0 (Cell.empty_with_clock 9) (c5_api.sim.cell_at 0 0)
    [Material.Water] (by decide) (by decide)

/-- C9: `try_move_into` toward an out-of-bounds offset with Wall in the
allowed list reports success, overwrites the source slot with a Wall cell
stamped `clock = generation + 1`, and writes to no destination slot: the
moving cell is discarded and a new Wall cell appears, so the primitive does
not preserve per-material cell counts in general. -/
theorem c9_try_move_into_oob_wall (a : SimAPI) (dx dy : Int) (c : Cell)
    (allowed : List Material)
    (hoob : ¬ a.sim.in_bounds (a.x + dx) (a.y + dy))
    (hW : Material.Wall ∈ allowed) :
    (a.try_move_into dx dy c allowed).1 = true ∧
    (a.try_move_into dx dy c allowed).2.sim.cells
      = a.sim.cells.set (idx a.sim.width a.x a.y)
          { material := Material.Wall, ra := 0, rb := 0,
            clock := (a.sim.generation + 1) % 256 } ∧
    (a.try_move_into dx dy c allowed).2.sim.width = a.sim.width ∧
    (a.try_move_into dx dy c allowed).2.sim.height = a.sim.height ∧
    (a.try_move_into dx dy c allowed).2.sim.generation = a.sim.generation := by
  have hg : a.get dx dy
      = { material := Material.Wall, ra := 0, rb := 0, clock := a.sim.generation } := by
    simp [SimAPI.get, hoob]
  unfold SimAPI.try_move_into
  rw [hg]
  simp [hW, SimAPI.set, hoob]

theorem c9_try_move_into_oob_wall_witness :
    (c9_api.try_move_into (-1) 0 (c9_api.sim.cell_at 0 0) [Material.Wall]).1 = true ∧
    c9_api.sim.count_mat 2 = 1 ∧
    (c9_api.try_move_into (-1) 0 (c9_api.sim.cell_at 0 0) [Material.Wall]).2.sim.count_mat 2
      = 0 ∧
    c9_api.sim.count_mat 1 = 0 ∧
    (c9_api.try_move_into (-1) 0 (c9_api.sim.cell_at 0 0) [Material.Wall]).2.sim.count_mat 1
      = 1 :=
  ⟨(c9_try_move_into_oob_wall c9_api (-1) 0 (c9_api.sim.cell_at 0 0) [Material.Wall]
      (by decide) (by decide)).1,
    by decide, by decide, by decide, by decide⟩

/-- C4: two simulations freshly constructed with identical dimensions,
fed the identical sequence of `set_cell` / `paint_circle` / `step` calls,
produce identical pixel buffers after every corresponding call.  In this
pure embedding the constructor's state (including the fixed RNG seed) is a
function of the dimensions alone, so the traces coincide definitionally. -/
theorem c4_determinism (w h : Nat) (cmds : List Cmd) (s1 s2 : Simulation)
    (h1 : s1 = Simulation.new w h) (h2 : s2 = Simulation.new w h) :
    pixel_trace s1 cmds = pixel_trace s2 cmds := by
  subst h1; subst h2; rfl

theorem c4_determinism_witness :
    pixel_trace (Simulation.new 2 2) [Cmd.set_cell 0 0 2, Cmd.step 1]
      = pixel_trace (Simulation.new 2 2) [Cmd.set_cell 0 0 2, Cmd.step 1] :=
  c4_determinism 2 2 [Cmd.set_cell 0 0 2, Cmd.step 1] _ _ rfl rfl

set_option maxRecDepth 200000 in
/-- C1 refuted on the code: during tick 2 of the C1 scenario (generation 2,
left-to-right scan) the Water cell is moved from (1,1) to (2,1) when the
scan processes (1,1), stamped `clock = generation + 1 = 3`; the very next
scan position (2,1) — shown by the `take`-prefix conjunct — processes the
same cell again (3 ≠ 2, so the skip check does not fire) and moves it to
(3,1).  Its position changes twice within one tick.  The last conjunct ties
the prefix folds to two genuine `tick`s of the engine. -/
theorem c1_same_tick_double_move :
    ((c1_during 6).cell_at 1 1).material = Material.Empty ∧
    ((c1_during 6).cell_at 2 1).material = Material.Water ∧
    ((c1_during 6).cell_at 2 1).clock = 3 ∧
    (c1_during 6).generation = 2 ∧
    ((c1_during 7).cell_at 2 1).material = Material.Empty ∧
    ((c1_during 7).cell_at 3 1).material = Material.Water ∧
    (scan_positions 4 3 2).take 7 = (scan_positions 4 3 2).take 6 ++ [(2, 1)] ∧
    c1_start.tick.tick = c1_during 12 := by
  decide

set_option maxRecDepth 200000 in
/-- C2 refuted on the code: in the C2 scenario the Sand cell is written
during tick 2 (generation 2) with stamp `clock = 3`; on the immediately
following tick (generation 3) the claim says it is processed normally, but
the skip check `clock == generation` fires and the whole tick changes
nothing but the generation counter — the Sand stays at (0,1) although
(0,2) below it is Empty. -/
theorem c2_clock_stamp_skips_next_tick :
    (c2_start.run_ticks 2).generation = 2 ∧
    ((c2_start.run_ticks 2).cell_at 0 1).material = Material.Sand ∧
    ((c2_start.run_ticks 2).cell_at 0 1).clock = 3 ∧
    ((c2_start.run_ticks 2).cell_at 0 2).material = Material.Empty ∧
    c2_start.run_ticks 3 = { c2_start.run_ticks 2 with generation := 3 } := by
  decide

set_option maxRecDepth 400000 in
/-- C6 refuted on the code: in the C6 scenario (height 5) the Sand cell is
at (1,2) after `step(5)` — still two rows above its resting place — and one
further `step` moves it to (1,3): the position is not unchanged, so the
cell has not reached a stable resting position within `height` ticks (the
clock slip makes cells move only every other tick). -/
theorem c6_sand_not_settled_within_height_ticks :
    ((c6_start.step 5).cell_at 1 2).material = Material.Sand ∧
    (((c6_start.step 5).step 1).cell_at 1 2).material = Material.Empty ∧
    (((c6_start.step 5).step 1).cell_at 1 3).material = Material.Sand := by
  decide

/-- Setting one slot changes `mcount` by swapping the old entry for the new. -/
theorem mcount_set (l : List Cell) (i : Nat) (v : Cell) (P : Material → Bool)
    (h : i < l.length) :
    mcount (l.set i v) P + (if P l[i].material then 1 else 0)
      = mcount l P + (if P v.material then 1 else 0) := by
  induction l generalizing i with
  | nil => simp at h
  | cons a l ih =>
    cases i with
    | zero =>
      by_cases hP : P a.material <;> by_cases hv : P v.material <;>
        simp [mcount, List.filter_cons, hP, hv]
    | succ n =>
      have hn : n < l.length := by simpa using h
      have e := ih n hn
      by_cases hP : P a.material
      · simp [mcount, List.filter_cons, hP] at e ⊢; omega
      · simp [mcount, List.filter_cons, hP] at e ⊢; omega

/-- Writing `v` at `i` and `w` at `j ≠ i`, where `v` carries the material
previously at `j` and `w` the material previously at `i`, preserves every
per-material count (covers both the move and the swap primitive). -/
theorem mcount_transfer (l : List Cell) (i j : Nat) (v w : Cell) (P : Material → Bool)
    (hij : i ≠ j) (hi : i < l.length) (hj : j < l.length)
    (h1 : v.material = l[j].material) (h2 : w.material = l[i].material) :
    mcount ((l.set i v).set j w) P = mcount l P := by
  have hj2 : j < (l.set i v).length := by simpa using hj
  have e1 := mcount_set (l.set i v) j w P hj2
  have e2 := mcount_set l i v P hi
  have hg : (l.set i v)[j] = l[j] := List.getElem_set_ne hij hj2
  rw [hg, h2] at e1
  rw [h1] at e2
  omega

/-- In-bounds coordinates index inside the grid list. -/
theorem idx_lt (s : Simulation) (x y : Int) (hin : s.in_bounds x y)
    (hlen : s.cells.length = s.width * s.height) :
    idx s.width x y < s.cells.length := by
  obtain ⟨hx0, hy0, hxw, hyh⟩ := hin
  unfold idx
  have hx : x.toNat < s.width := by omega
  have hy : y.toNat < s.height := by omega
  have h1 : (y.toNat + 1) * s.width = y.toNat * s.width + s.width :=
    Nat.succ_mul y.toNat s.width
  have h2 : (y.toNat + 1) * s.width ≤ s.height * s.width :=
    Nat.mul_le_mul_right _ (by omega)
  have h3 : s.height * s.width = s.width * s.height := Nat.mul_comm _ _
  omega

/-- Distinct in-bounds coordinates have distinct flat indices. -/
theorem idx_ne (w : Nat) (x y x2 y2 : Int)
    (hx0 : 0 ≤ x) (hxw : x < (w : Int)) (hx20 : 0 ≤ x2) (hx2w : x2 < (w : Int))
    (hy0 : 0 ≤ y) (hy20 : 0 ≤ y2)
    (hne : ¬ (x = x2 ∧ y = y2)) :
    idx w x y ≠ idx w x2 y2 := by
  unfold idx
  intro he
  have hxw2 : x.toNat < w := by omega
  have hx2w2 : x2.toNat < w := by omega
  have m1 : (y.toNat * w + x.toNat) % w = x.toNat % w := by
    rw [Nat.mul_comm]; exact Nat.mul_add_mod w y.toNat x.toNat
  have m2 : (y2.toNat * w + x2.toNat) % w = x2.toNat % w := by
    rw [Nat.mul_comm]; exact Nat.mul_add_mod w y2.toNat x2.toNat
  have hxx : x.toNat = x2.toNat := by
    have h := m1
    rw [he, m2] at h
    rw [Nat.mod_eq_of_lt hx2w2, Nat.mod_eq_of_lt hxw2] at h
    exact h.symm
  have hww : 0 < w := by omega
  rw [hxx] at he
  have hyy : y.toNat = y2.toNat :=
    Nat.eq_of_mul_eq_mul_right hww (Nat.add_right_cancel he)
  exact hne ⟨by omega, by omega⟩

theorem Step.of_self (a : SimAPI) : Step a a := ⟨rfl, rfl, rfl, rfl, rfl, fun _ => rfl⟩

theorem Step.trans {a b c : SimAPI} (h1 : Step a b) (h2 : Step b c) : Step a c := by
  obtain ⟨x1, y1, w1, hh1, l1, m1⟩ := h1
  obtain ⟨x2, y2, w2, hh2, l2, m2⟩ := h2
  exact ⟨x2.trans x1, y2.trans y1, w2.trans w1, hh2.trans hh1, l2.trans l1,
    fun P => (m2 P).trans (m1 P)⟩

theorem Keep.toStep {a b : SimAPI} (h : Keep a b) : Step a b := by
  obtain ⟨hx, hy, hw, hh, hc⟩ := h
  exact ⟨hx, hy, hw, hh, by rw [hc], fun P => by rw [hc]⟩

theorem Keep.comp {a b c : SimAPI} (h1 : Keep a b) (h2 : Keep b c) : Keep a c := by
  obtain ⟨x1, y1, w1, hh1, c1⟩ := h1
  obtain ⟨x2, y2, w2, hh2, c2⟩ := h2
  exact ⟨x2.trans x1, y2.trans y1, w2.trans w1, hh2.trans hh1, c2.trans c1⟩

/-- `rand_u32` only advances the RNG word. -/
theorem rand_keep (a : SimAPI) : Keep a (a.rand_u32).2 := ⟨rfl, rfl, rfl, rfl, rfl⟩

theorem ApiOk.of_keep {a b : SimAPI} {c : Cell} (h : ApiOk a c) (k : Keep a b) :
    ApiOk b c := by
  obtain ⟨hin, hlen, hsrc⟩ := h
  obtain ⟨hx, hy, hw, hh, hc⟩ := k
  refine ⟨?_, ?_, ?_⟩
  · unfold Simulation.in_bounds at hin ⊢
    rw [hx, hy, hw, hh]
    exact hin
  · rw [hc, hw, hh]; exact hlen
  · rw [hc, hw, hx, hy]; exact hsrc

/-- Compose one attempt with the continuation taken on failure. -/
theorem Chain.link {b : SimAPI} {p q : Bool × SimAPI}
    (hp : Chain b p) (hq : p.1 = false → Chain b q) :
    Chain b (if p.1 then p else q) := by
  cases hc : p.1
  · simpa [hc] using hq hc
  · simpa [hc] using hp

/-- `try_move` run from a well-formed view is a conserving attempt: counts
and dimensions are preserved, and on failure nothing at all changes. -/
theorem try_move_chain (a : SimAPI) (dx dy : Int) (c : Cell)
    (hok : ApiOk a c) (hne : ¬ (dx = 0 ∧ dy = 0)) :
    Chain a (a.try_move dx dy c) := by
  obtain ⟨hin, hlen, hsrc⟩ := hok
  unfold SimAPI.try_move
  by_cases hE : (a.get dx dy).material = Material.Empty
  · rw [if_pos hE]
    refine ⟨?_, by simp⟩
    have hb : a.sim.in_bounds (a.x + dx) (a.y + dy) := by
      by_contra hnb
      simp [SimAPI.get, hnb] at hE
    have hgv : a.get dx dy
        = a.sim.cells.getD (idx a.sim.width (a.x + dx) (a.y + dy))
            (Cell.empty_with_clock 0) := by
      simp [SimAPI.get, hb]
    have hset : a.set dx dy c = { a with sim := { a.sim with
        cells := a.sim.cells.set (idx a.sim.width (a.x + dx) (a.y + dy))
          { c with clock := (a.sim.generation + 1) % 256 } } } := by
      simp [SimAPI.set, hb]
    have hi2 : idx a.sim.width (a.x + dx) (a.y + dy) < a.sim.cells.length :=
      idx_lt a.sim _ _ hb hlen
    have hj2 : idx a.sim.width a.x a.y < a.sim.cells.length :=
      idx_lt a.sim _ _ hin hlen
    have e1 : a.sim.cells[idx a.sim.width a.x a.y]
        = a.sim.cells.getD (idx a.sim.width a.x a.y) (Cell.empty_with_clock 0) :=
      (List.getD_eq_getElem _ _ hj2).symm
    have e2 : a.sim.cells[idx a.sim.width (a.x + dx) (a.y + dy)]
        = a.sim.cells.getD (idx a.sim.width (a.x + dx) (a.y + dy))
            (Cell.empty_with_clock 0) :=
      (List.getD_eq_getElem _ _ hi2).symm
    rw [hset]
    unfold SimAPI.clear_here
    refine ⟨rfl, rfl, rfl, rfl, by simp, fun P => ?_⟩
    refine mcount_transfer a.sim.cells
      (idx a.sim.width (a.x + dx) (a.y + dy)) (idx a.sim.width a.x a.y)
      { c with clock := (a.sim.generation + 1) % 256 }
      (Cell.empty_with_clock ((a.sim.generation + 1) % 256)) P
      ?_ hi2 hj2 ?_ ?_
    · exact idx_ne a.sim.width _ _ _ _ hb.1 hb.2.2.1 hin.1 hin.2.2.1 hb.2.1 hin.2.1
        (by intro hcon; exact hne ⟨by omega, by omega⟩)
    · rw [e1]; exact hsrc.symm
    · rw [e2, ← hgv]; exact hE.symm
  · rw [if_neg hE]
    exact ⟨Step.of_self a, fun _ => rfl⟩

/-- `try_move_into` with allowed list `[Water]` run from a well-formed view
is a conserving attempt (the swap exchanges the two slots' materials). -/
theorem try_move_into_water_chain (a : SimAPI) (dx dy : Int) (c : Cell)
    (hok : ApiOk a c) (hne : ¬ (dx = 0 ∧ dy = 0)) :
    Chain a (a.try_move_into dx dy c [Material.Water]) := by
  obtain ⟨hin, hlen, hsrc⟩ := hok
  simp only [SimAPI.try_move_into]
  by_cases hT : (a.get dx dy).material ∈ [Material.Water]
  · rw [if_pos hT]
    refine ⟨?_, by simp⟩
    have hWat : (a.get dx dy).material = Material.Water := by simpa using hT
    have hb : a.sim.in_bounds (a.x + dx) (a.y + dy) := by
      by_contra hnb
      simp [SimAPI.get, hnb] at hWat
    have hgv : a.get dx dy
        = a.sim.cells.getD (idx a.sim.width (a.x + dx) (a.y + dy))
            (Cell.empty_with_clock 0) := by
      simp [SimAPI.get, hb]
    have hset : a.set dx dy c = { a with sim := { a.sim with
        cells := a.sim.cells.set (idx a.sim.width (a.x + dx) (a.y + dy))
          { c with clock := (a.sim.generation + 1) % 256 } } } := by
      simp [SimAPI.set, hb]
    have hi2 : idx a.sim.width (a.x + dx) (a.y + dy) < a.sim.cells.length :=
      idx_lt a.sim _ _ hb hlen
    have hj2 : idx a.sim.width a.x a.y < a.sim.cells.length :=
      idx_lt a.sim _ _ hin hlen
    have e1 : a.sim.cells[idx a.sim.width a.x a.y]
        = a.sim.cells.getD (idx a.sim.width a.x a.y) (Cell.empty_with_clock 0) :=
      (List.getD_eq_getElem _ _ hj2).symm
    have e2 : a.sim.cells[idx a.sim.width (a.x + dx) (a.y + dy)]
        = a.sim.cells.getD (idx a.sim.width (a.x + dx) (a.y + dy))
            (Cell.empty_with_clock 0) :=
      (List.getD_eq_getElem _ _ hi2).symm
    rw [hset]
    refine ⟨rfl, rfl, rfl, rfl, by simp, fun P => ?_⟩
    refine mcount_transfer a.sim.cells
      (idx a.sim.width (a.x + dx) (a.y + dy)) (idx a.sim.width a.x a.y)
      { c with clock := (a.sim.generation + 1) % 256 }
      { a.get dx dy with clock := (a.sim.generation + 1) % 256 } P
      ?_ hi2 hj2 ?_ ?_
    · exact idx_ne a.sim.width _ _ _ _ hb.1 hb.2.2.1 hin.1 hin.2.2.1 hb.2.1 hin.2.1
        (by intro hcon; exact hne ⟨by omega, by omega⟩)
    · rw [e1]; exact hsrc.symm
    · show (a.get dx dy).material = _
      rw [hgv, e2]
  · rw [if_neg hT]
    exact ⟨Step.of_self a, fun _ => rfl⟩

/-- `update_sand` preserves position, dimensions and all material counts. -/
theorem update_sand_step (cell : Cell) (a : SimAPI) (hok : ApiOk a cell) :
    Step a (update_sand cell a) := by
  simp only [update_sand]
  have ch1 := try_move_chain a 0 1 cell hok (by omega)
  cases hb1 : (a.try_move 0 1 cell).1
  case true =>
    simp only [hb1, if_true]
    exact ch1.1
  case false =>
    rw [ch1.2 hb1]
    simp only [hb1, Bool.false_eq_true, if_false]
    have hk : Keep a (a.rand_u32).2 := rand_keep a
    have hok2 : ApiOk (a.rand_u32).2 cell := hok.of_keep hk
    set b := (a.rand_u32).2 with hbdef
    have chD : Chain b
        (if ((a.generation ^^^ (a.rand_u32).1) &&& 1 == 0 : Bool)
          then
            (if (b.try_move (-1) 1 cell).1
              then b.try_move (-1) 1 cell
              else (b.try_move (-1) 1 cell).2.try_move 1 1 cell)
          else
            (if (b.try_move 1 1 cell).1
              then b.try_move 1 1 cell
              else (b.try_move 1 1 cell).2.try_move (-1) 1 cell)) := by
      cases hlf : ((a.generation ^^^ (a.rand_u32).1) &&& 1 == 0 : Bool)
      all_goals simp only [hlf, Bool.false_eq_true, if_true, if_false]
      · refine Chain.link (try_move_chain _ 1 1 cell hok2 (by omega)) (fun hf => ?_)
        rw [(try_move_chain _ 1 1 cell hok2 (by omega)).2 hf]
        exact try_move_chain _ (-1) 1 cell hok2 (by omega)
      · refine Chain.link (try_move_chain _ (-1) 1 cell hok2 (by omega)) (fun hf => ?_)
        rw [(try_move_chain _ (-1) 1 cell hok2 (by omega)).2 hf]
        exact try_move_chain _ 1 1 cell hok2 (by omega)
    set D := (if ((a.generation ^^^ (a.rand_u32).1) &&& 1 == 0 : Bool)
        then
          (if (b.try_move (-1) 1 cell).1
            then b.try_move (-1) 1 cell
            else (b.try_move (-1) 1 cell).2.try_move 1 1 cell)
        else
          (if (b.try_move 1 1 cell).1
            then b.try_move 1 1 cell
            else (b.try_move 1 1 cell).2.try_move (-1) 1 cell)) with hDdef
    cases hbD : D.1
    case false =>
      rw [chD.2 hbD]
      simp only [hbD, Bool.false_eq_true, if_false]
      have chE := try_move_into_water_chain b 0 1 cell hok2 (by omega)
      cases hbE : (b.try_move_into 0 1 cell [Material.Water]).1
      case false =>
        rw [chE.2 hbE]
        simp only [hbE, Bool.false_eq_true, if_false]
        cases hlf : ((a.generation ^^^ (a.rand_u32).1) &&& 1 == 0 : Bool)
        all_goals simp only [hlf, Bool.false_eq_true, if_true, if_false]
        · have chF := try_move_into_water_chain b 1 1 cell hok2 (by omega)
          cases hbF : (b.try_move_into 1 1 cell [Material.Water]).1
          case false =>
            rw [chF.2 hbF]
            simp only [hbF, Bool.false_eq_true, if_false]
            exact hk.toStep.trans (try_move_into_water_chain b (-1) 1 cell hok2 (by omega)).1
          case true =>
            simp only [hbF, if_true]
            exact hk.toStep.trans chF.1
        · have chF := try_move_into_water_chain b (-1) 1 cell hok2 (by omega)
          cases hbF : (b.try_move_into (-1) 1 cell [Material.Water]).1
          case false =>
            rw [chF.2 hbF]
            simp only [hbF, Bool.false_eq_true, if_false]
            exact hk.toStep.trans (try_move_into_water_chain b 1 1 cell hok2 (by omega)).1
          case true =>
            simp only [hbF, if_true]
            exact hk.toStep.trans chF.1
      case true =>
        simp only [hbE, if_true]
        exact hk.toStep.trans chE.1
    case true =>
      simp only [hbD, if_true]
      exact hk.toStep.trans chD.1

/-- A cascade of four `try_move` attempts is a conserving attempt. -/
theorem four_chain (b : SimAPI) (cell : Cell) (hok : ApiOk b cell)
    (x1 y1 x2 y2 x3 y3 x4 y4 : Int)
    (h1 : ¬ (x1 = 0 ∧ y1 = 0)) (h2 : ¬ (x2 = 0 ∧ y2 = 0))
    (h3 : ¬ (x3 = 0 ∧ y3 = 0)) (h4 : ¬ (x4 = 0 ∧ y4 = 0)) :
    Chain b
      (if (b.try_move x1 y1 cell).1 then b.try_move x1 y1 cell
        else (if ((b.try_move x1 y1 cell).2.try_move x2 y2 cell).1
          then (b.try_move x1 y1 cell).2.try_move x2 y2 cell
          else (if (((b.try_move x1 y1 cell).2.try_move x2 y2 cell).2.try_move x3 y3 cell).1
            then ((b.try_move x1 y1 cell).2.try_move x2 y2 cell).2.try_move x3 y3 cell
            else (((b.try_move x1 y1 cell).2.try_move x2 y2 cell).2.try_move
                x3 y3 cell).2.try_move x4 y4 cell))) := by
  refine Chain.link (try_move_chain _ _ _ cell hok h1) (fun f1 => ?_)
  rw [(try_move_chain _ _ _ cell hok h1).2 f1]
  refine Chain.link (try_move_chain _ _ _ cell hok h2) (fun f2 => ?_)
  rw [(try_move_chain _ _ _ cell hok h2).2 f2]
  refine Chain.link (try_move_chain _ _ _ cell hok h3) (fun f3 => ?_)
  rw [(try_move_chain _ _ _ cell hok h3).2 f3]
  exact try_move_chain _ _ _ cell hok h4

/-- Run an attempt; on success stop, on failure continue with `k`. -/
theorem chain_then {a b : SimAPI} {p : Bool × SimAPI} (k : SimAPI → SimAPI)
    (hk : Keep a b) (hp : Chain b p)
    (htail : Step a (k b)) :
    Step a (if p.1 then p.2 else k p.2) := by
  cases hc : p.1
  · rw [hp.2 hc]
    simp only [hc, Bool.false_eq_true, if_false]
    exact htail
  · simp only [hc, if_true]
    exact hk.toStep.trans hp.1

/-- The pool check and final lateral attempts of `update_water` conserve. -/
theorem water_tail_step (cell : Cell) (a b : SimAPI) (lf : Bool)
    (hk : Keep a b) (hok : ApiOk b cell) :
    Step a
      (if ¬ (((b.get 0 1).material = Material.Wall ∨ (b.get 0 1).material = Material.Water)
          ∧ ((b.get (-1) 0).material = Material.Wall
              ∨ (b.get (-1) 0).material = Material.Water)
          ∧ ((b.get 1 0).material = Material.Wall
              ∨ (b.get 1 0).material = Material.Water))
        then
          (if lf then
            (if (b.try_move (-1) 0 cell).1 then (b.try_move (-1) 0 cell).2
              else ((b.try_move (-1) 0 cell).2.try_move 1 0 cell).2)
            else
            (if (b.try_move 1 0 cell).1 then (b.try_move 1 0 cell).2
              else ((b.try_move 1 0 cell).2.try_move (-1) 0 cell).2))
        else b) := by
  by_cases hpool : (((b.get 0 1).material = Material.Wall
        ∨ (b.get 0 1).material = Material.Water)
      ∧ ((b.get (-1) 0).material = Material.Wall
          ∨ (b.get (-1) 0).material = Material.Water)
      ∧ ((b.get 1 0).material = Material.Wall
          ∨ (b.get 1 0).material = Material.Water))
  · rw [if_neg (not_not_intro hpool)]
    exact hk.toStep
  · rw [if_pos hpool]
    cases hlf : lf
    all_goals simp only [hlf, Bool.false_eq_true, if_true, if_false]
    · have c1 := try_move_chain b 1 0 cell hok (by omega)
      cases hb1 : (b.try_move 1 0 cell).1
      · rw [c1.2 hb1]
        simp only [hb1, Bool.false_eq_true, if_false]
        exact hk.toStep.trans (try_move_chain b (-1) 0 cell hok (by omega)).1
      · simp only [hb1, if_true]
        exact hk.toStep.trans c1.1
    · have c1 := try_move_chain b (-1) 0 cell hok (by omega)
      cases hb1 : (b.try_move (-1) 0 cell).1
      · rw [c1.2 hb1]
        simp only [hb1, Bool.false_eq_true, if_false]
        exact hk.toStep.trans (try_move_chain b 1 0 cell hok (by omega)).1
      · simp only [hb1, if_true]
        exact hk.toStep.trans c1.1

/-- `update_water` preserves position, dimensions and all material counts. -/
theorem update_water_step (cell : Cell) (a : SimAPI) (hok : ApiOk a cell) :
    Step a (update_water cell a) := by
  simp only [update_water]
  have hk1 : Keep a (a.rand_u32).2 := rand_keep a
  set b1 := (a.rand_u32).2 with hb1def
  have hok1 : ApiOk b1 cell := hok.of_keep hk1
  cases hv : ((a.rand_u32).1 % 4 == 0 : Bool)
  case true =>
    simp only [hv, if_true]
    exact hk1.toStep
  case false =>
    simp only [hv, Bool.false_eq_true, if_false]
    have ch1 := try_move_chain b1 0 1 cell hok1 (by omega)
    cases hp : (b1.try_move 0 1 cell).1
    case true =>
      simp only [hp, if_true]
      exact hk1.toStep.trans ch1.1
    case false =>
      rw [ch1.2 hp]
      simp only [hp, Bool.false_eq_true, if_false]
      have hk2 : Keep a (b1.rand_u32).2 := hk1.comp (rand_keep b1)
      set b2 := (b1.rand_u32).2 with hb2def
      have hok2 : ApiOk b2 cell := hok.of_keep hk2
      by_cases hs : (b1.get 0 (-1)).material = Material.Empty
      · rw [if_pos hs]
        cases hlf : ((b1.generation ^^^ (b1.rand_u32).1) &&& 1 == 0 : Bool)
        · simp only [hlf, Bool.false_eq_true, if_false]
          refine chain_then
            (fun api =>
              if ¬ (((api.get 0 1).material = Material.Wall
                    ∨ (api.get 0 1).material = Material.Water)
                  ∧ ((api.get (-1) 0).material = Material.Wall
                      ∨ (api.get (-1) 0).material = Material.Water)
                  ∧ ((api.get 1 0).material = Material.Wall
                      ∨ (api.get 1 0).material = Material.Water))
                then
                  (if (api.try_move 1 0 cell).1 then (api.try_move 1 0 cell).2
                    else ((api.try_move 1 0 cell).2.try_move (-1) 0 cell).2)
                else api)
            hk2
            (four_chain b2 cell hok2 _ _ _ _ _ _ _ _
              (by omega) (by omega) (by omega) (by omega)) ?_
          exact water_tail_step cell a b2 false hk2 hok2
        · simp only [hlf, if_true]
          refine chain_then
            (fun api =>
              if ¬ (((api.get 0 1).material = Material.Wall
                    ∨ (api.get 0 1).material = Material.Water)
                  ∧ ((api.get (-1) 0).material = Material.Wall
                      ∨ (api.get (-1) 0).material = Material.Water)
                  ∧ ((api.get 1 0).material = Material.Wall
                      ∨ (api.get 1 0).material = Material.Water))
                then
                  (if (api.try_move (-1) 0 cell).1 then (api.try_move (-1) 0 cell).2
                    else ((api.try_move (-1) 0 cell).2.try_move 1 0 cell).2)
                else api)
            hk2
            (four_chain b2 cell hok2 _ _ _ _ _ _ _ _
              (by omega) (by omega) (by omega) (by omega)) ?_
          exact water_tail_step cell a b2 true hk2 hok2
      · rw [if_neg hs]
        cases hlf : ((b1.generation ^^^ (b1.rand_u32).1) &&& 1 == 0 : Bool)
        · simp only [hlf, Bool.false_eq_true, if_false]
          refine chain_then
            (fun api =>
              if ¬ (((api.get 0 1).material = Material.Wall
                    ∨ (api.get 0 1).material = Material.Water)
                  ∧ ((api.get (-1) 0).material = Material.Wall
                      ∨ (api.get (-1) 0).material = Material.Water)
                  ∧ ((api.get 1 0).material = Material.Wall
                      ∨ (api.get 1 0).material = Material.Water))
                then
                  (if (api.try_move 1 0 cell).1 then (api.try_move 1 0 cell).2
                    else ((api.try_move 1 0 cell).2.try_move (-1) 0 cell).2)
                else api)
            hk2
            (four_chain b2 cell hok2 _ _ _ _ _ _ _ _
              (by omega) (by omega) (by omega) (by omega)) ?_
          exact water_tail_step cell a b2 false hk2 hok2
        · simp only [hlf, if_true]
          refine chain_then
            (fun api =>
              if ¬ (((api.get 0 1).material = Material.Wall
                    ∨ (api.get 0 1).material = Material.Water)
                  ∧ ((api.get (-1) 0).material = Material.Wall
                      ∨ (api.get (-1) 0).material = Material.Water)
                  ∧ ((api.get 1 0).material = Material.Wall
                      ∨ (api.get 1 0).material = Material.Water))
                then
                  (if (api.try_move (-1) 0 cell).1 then (api.try_move (-1) 0 cell).2
                    else ((api.try_move (-1) 0 cell).2.try_move 1 0 cell).2)
                else api)
            hk2
            (four_chain b2 cell hok2 _ _ _ _ _ _ _ _
              (by omega) (by omega) (by omega) (by omega)) ?_
          exact water_tail_step cell a b2 true hk2 hok2

theorem SimConserved.of_self_sim (s : Simulation) : SimConserved s s :=
  ⟨rfl, rfl, rfl, fun _ => rfl⟩

theorem SimConserved.compose {s t u : Simulation}
    (h1 : SimConserved s t) (h2 : SimConserved t u) : SimConserved s u := by
  obtain ⟨w1, hh1, l1, m1⟩ := h1
  obtain ⟨w2, hh2, l2, m2⟩ := h2
  exact ⟨w2.trans w1, hh2.trans hh1, l2.trans l1, fun P => (m2 P).trans (m1 P)⟩

/-- One `update_at` at an in-bounds coordinate conserves the grid. -/
theorem update_at_conserved (s : Simulation) (x y : Int)
    (hin : s.in_bounds x y) (hlen : s.cells.length = s.width * s.height) :
    SimConserved s (s.update_at x y) := by
  simp only [Simulation.update_at]
  by_cases hskip : (u8_wrapping_sub
      (s.cells.getD (idx s.width x y) (Cell.empty_with_clock 0)).clock s.generation == 0 : Bool)
      = true
  · rw [if_pos hskip]
    exact SimConserved.of_self_sim s
  · rw [if_neg hskip]
    by_cases hemp : (s.cells.getD (idx s.width x y) (Cell.empty_with_clock 0)).material
        = Material.Empty
    · rw [if_pos hemp]
      exact SimConserved.of_self_sim s
    · rw [if_neg hemp]
      have hok : ApiOk { x := x, y := y, sim := s }
          (s.cells.getD (idx s.width x y) (Cell.empty_with_clock 0)) := ⟨hin, hlen, rfl⟩
      unfold update_cell
      cases hm : (s.cells.getD (idx s.width x y) (Cell.empty_with_clock 0)).material
      · exact SimConserved.of_self_sim s
      · exact SimConserved.of_self_sim s
      · have hstep := update_sand_step _ _ hok
        exact ⟨hstep.2.2.1, hstep.2.2.2.1, hstep.2.2.2.2.1, hstep.2.2.2.2.2⟩
      · have hstep := update_water_step _ _ hok
        exact ⟨hstep.2.2.1, hstep.2.2.2.1, hstep.2.2.2.2.1, hstep.2.2.2.2.2⟩
      · exact SimConserved.of_self_sim s

/-- Every scan position lies inside the grid. -/
theorem scan_positions_bounds (w h gen : Nat) (p : Int × Int)
    (hp : p ∈ scan_positions w h gen) :
    0 ≤ p.1 ∧ 0 ≤ p.2 ∧ p.1 < (w : Int) ∧ p.2 < (h : Int) := by
  unfold scan_positions at hp
  rw [List.mem_flatMap] at hp
  obtain ⟨y, hy, hmem⟩ := hp
  rw [List.mem_reverse, List.mem_range] at hy
  rw [List.mem_map] at hmem
  obtain ⟨x, hx, rfl⟩ := hmem
  have hxb : 0 ≤ x ∧ x < (w : Int) := by
    have hx2 : ∃ a, a < w ∧ x = (a : Int) := by
      split at hx <;> simpa using hx
    obtain ⟨a, ha, rfl⟩ := hx2
    exact ⟨Int.ofNat_nonneg a, by exact_mod_cast ha⟩
  refine ⟨hxb.1, Int.ofNat_nonneg y, hxb.2, ?_⟩
  show (y : Int) < (h : Int)
  exact_mod_cast hy

/-- Folding `update_at` over in-bounds positions conserves the grid. -/
theorem fold_update_conserved (ps : List (Int × Int)) (s : Simulation)
    (hps : ∀ p ∈ ps, 0 ≤ p.1 ∧ 0 ≤ p.2 ∧ p.1 < (s.width : Int) ∧ p.2 < (s.height : Int))
    (hlen : s.cells.length = s.width * s.height) :
    SimConserved s (ps.foldl (fun st p => st.update_at p.1 p.2) s) := by
  induction ps generalizing s with
  | nil => exact SimConserved.of_self_sim s
  | cons p ps ih =>
    simp only [List.foldl_cons]
    have hhd := hps p (List.mem_cons_self p ps)
    have hin : s.in_bounds p.1 p.2 := ⟨hhd.1, hhd.2.1, hhd.2.2.1, hhd.2.2.2⟩
    have h1 : SimConserved s (s.update_at p.1 p.2) := update_at_conserved s p.1 p.2 hin hlen
    have hlen1 : (s.update_at p.1 p.2).cells.length
        = (s.update_at p.1 p.2).width * (s.update_at p.1 p.2).height := by
      rw [h1.1, h1.2.1, h1.2.2.1]; exact hlen
    have hps1 : ∀ q ∈ ps, 0 ≤ q.1 ∧ 0 ≤ q.2
        ∧ q.1 < ((s.update_at p.1 p.2).width : Int)
        ∧ q.2 < ((s.update_at p.1 p.2).height : Int) := by
      intro q hq
      have := hps q (List.mem_cons_of_mem p hq)
      exact ⟨this.1, this.2.1, by rw [h1.1]; exact this.2.2.1, by rw [h1.2.1]; exact this.2.2.2⟩
    exact h1.compose (ih (s.update_at p.1 p.2) hps1 hlen1)

/-- One tick of the stepping loop conserves the grid. -/
theorem tick_conserved (s : Simulation) (hlen : s.cells.length = s.width * s.height) :
    SimConserved s s.tick := by
  unfold Simulation.tick
  have base : SimConserved s { s with generation := (s.generation + 1) % 256 } :=
    ⟨rfl, rfl, rfl, fun _ => rfl⟩
  refine base.compose (fold_update_conserved _ _ ?_ hlen)
  intro p hp
  exact scan_positions_bounds _ _ _ p hp

/-- Any number of ticks conserves the grid. -/
theorem run_ticks_conserved (s : Simulation) (n : Nat)
    (hlen : s.cells.length = s.width * s.height) :
    SimConserved s (s.run_ticks n) := by
  induction n generalizing s with
  | zero => exact SimConserved.of_self_sim s
  | succ k ih =>
    simp only [Simulation.run_ticks]
    have h1 := tick_conserved s hlen
    have hlen1 : s.tick.cells.length = s.tick.width * s.tick.height := by
      rw [h1.1, h1.2.1, h1.2.2.1]; exact hlen
    exact h1.compose (ih s.tick hlen1)

/-- C3: for every well-formed simulation state and every tick count, with no
intervening `set_cell`/`paint_circle`/`clear` calls, `step(ticks)` leaves
the number of grid cells of each non-Empty material unchanged: the movement
primitives only relocate material. -/
theorem c3_mass_conservation (s : Simulation)
    (hlen : s.cells.length = s.width * s.height) (ticks : Nat)
    (m : Material) (hm : m ≠ Material.Empty) :
    (s.step ticks).count_mat m.id = s.count_mat m.id := by
  have h := run_ticks_conserved s ticks hlen
  have hc := h.2.2.2 (fun mat => decide (mat.id = m.id))
  have key : ∀ t : Simulation,
      t.count_mat m.id = mcount t.cells (fun mat => decide (mat.id = m.id)) :=
    fun t => rfl
  have hcell : (s.step ticks).cells = (s.run_ticks ticks).cells := rfl
  rw [key, key, hcell]
  exact hc

theorem c3_mass_conservation_witness :
    (c3_sim.step 2).count_mat Material.Sand.id = c3_sim.count_mat Material.Sand.id :=
  c3_mass_conservation c3_sim (by decide) 2 Material.Sand (by decide)
